import Mathlib

/-
Verification development for the motion-prediction model in
`predictor_transformer.py`.

Modelling conventions (shallow embedding):
* Tensors are curried functions over `Fin` index types; a tensor of shape
  (B, S, d) is `Fin B → Fin S → Vec d` with `Vec d := Fin d → ℚ`.
* Values are rationals.  The transcendental kernels that the source calls
  (exp in softmax / ELU / sigmoid, sin and cos in the positional-encoding
  table, 1/sqrt in layer normalisation and attention scaling, log 10000)
  are supplied as an `Apx` structure of opaque-to-us numeric functions,
  constrained only by facts the source relies on (exp is positive,
  sin 0 = 0, cos 0 = 1).  Every learned parameter (weights, biases) is an
  explicit argument, mirroring the nn.Module parameter sets.
* Dropout layers are modelled at inference time, i.e. as the identity.
* A softmax row whose keys are all masked produces NaN in the source
  (softmax of all -inf); we model NaN-poisoning by making multi-head
  attention return `Option`: `none` exactly when some batch row has every
  key masked.  All other arithmetic is total over ℚ.
* Python exceptions in `Predictor.forward` (KeyError on an unrecognized
  observation key, UnboundLocalError on a never-assigned local) are
  modelled with `Except PredErr`.
-/

set_option maxRecDepth 4000

namespace Spec2Proof

/-- A length-n vector of rationals (one tensor axis). -/
abbrev Vec (n : ℕ) : Type := Fin n → ℚ

/-- The transcendental/irrational numeric kernels used by the source,
abstracted as rational-valued functions together with the facts about them
the source depends on.  `expA` stands for exp, `sinA`/`cosA` for sin/cos,
`rsqrtA v` for 1/sqrt(v + eps) as used by LayerNorm, `invSqrtHd n` for
1/sqrt(n) as used by scaled dot-product attention, `ln10000` for
log(10000.0). -/
structure Apx where
  expA : ℚ → ℚ
  expA_pos : ∀ x, 0 < expA x
  sinA : ℚ → ℚ
  cosA : ℚ → ℚ
  sinA_zero : sinA 0 = 0
  cosA_zero : cosA 0 = 1
  rsqrtA : ℚ → ℚ
  invSqrtHd : ℕ → ℚ
  ln10000 : ℚ

/-- Parameters of `nn.Linear(i, o)`. -/
structure LinearP (i o : ℕ) where
  weight : Fin o → Fin i → ℚ
  bias : Fin o → ℚ

/-- `nn.Linear` applied to the last axis: y = W x + b. -/
def LinearP.ap {i o : ℕ} (L : LinearP i o) (x : Vec i) : Vec o :=
  fun j => (∑ k, L.weight j k * x k) + L.bias j

/-- `nn.ReLU`. -/
def relu (x : ℚ) : ℚ := max x 0

/-- `nn.ELU` (alpha = 1): x for positive x, exp(x) - 1 otherwise. -/
def elu (apx : Apx) (x : ℚ) : ℚ := if 0 < x then x else apx.expA x - 1

/-- `torch.sigmoid`: 1 / (1 + exp (-x)). -/
def sigmoid (apx : Apx) (x : ℚ) : ℚ := 1 / (1 + apx.expA (-x))

/-- Parameters of `nn.LayerNorm(d)` (elementwise affine). -/
structure LNP (d : ℕ) where
  gamma : Fin d → ℚ
  beta : Fin d → ℚ

/-- `nn.LayerNorm` over the last axis: normalise by mean and (biased)
variance, then scale and shift; `rsqrtA` stands for v ↦ 1/sqrt(v + eps). -/
def LNP.ap {d : ℕ} (apx : Apx) (P : LNP d) (x : Vec d) : Vec d :=
  fun j =>
    (x j - (∑ k, x k) / d) *
      apx.rsqrtA ((∑ k, (x k - (∑ m, x m) / d) ^ 2) / d) * P.gamma j + P.beta j

/-- Parameters of `nn.MultiheadAttention(d, ...)`: the packed q/k/v input
projections and the output projection. -/
structure MHAP (d : ℕ) where
  wq : Fin d → Fin d → ℚ
  bq : Fin d → ℚ
  wk : Fin d → Fin d → ℚ
  bk : Fin d → ℚ
  wv : Fin d → Fin d → ℚ
  bv : Fin d → ℚ
  wo : Fin d → Fin d → ℚ
  bo : Fin d → ℚ

/-- Flat channel index of coordinate c of head h (heads are contiguous
slices of width hd, as in torch). -/
def headIdx {H hd : ℕ} (h : Fin H) (c : Fin hd) : Fin (H * hd) :=
  ⟨h.1 * hd + c.1, by
    have h1 : h.1 + 1 ≤ H := h.2
    have h2 : h.1 * hd + c.1 < (h.1 + 1) * hd := by
      have := c.2
      calc h.1 * hd + c.1 < h.1 * hd + hd := by omega
        _ = (h.1 + 1) * hd := by ring
    exact lt_of_lt_of_le h2 (Nat.mul_le_mul_right hd h1)⟩

/-- Head of a flat channel index. -/
def headOf {H hd : ℕ} (d : Fin (H * hd)) : Fin H :=
  ⟨d.1 / hd, by
    have hpos : 0 < hd := by
      rcases Nat.eq_zero_or_pos hd with h0 | h
      · exact absurd d.2 (by simp [h0])
      · exact h
    exact (Nat.div_lt_iff_lt_mul hpos).mpr d.2⟩

/-- Within-head coordinate of a flat channel index. -/
def coordOf {H hd : ℕ} (d : Fin (H * hd)) : Fin hd :=
  ⟨d.1 % hd, by
    have hpos : 0 < hd := by
      rcases Nat.eq_zero_or_pos hd with h0 | h
      · exact absurd d.2 (by simp [h0])
      · exact h
    exact Nat.mod_lt _ hpos⟩

/-- Softmax over the key axis with a boolean padding mask (`true` = ignore):
masked keys get weight 0, unmasked keys get exp of their score normalised by
the sum over unmasked keys.  (If every key is masked the denominator is 0;
callers guard that case, see `mha`.) -/
def mSoftmax {S : ℕ} (apx : Apx) (mask : Fin S → Bool) (s : Fin S → ℚ) :
    Fin S → ℚ :=
  fun j =>
    if mask j then 0
    else apx.expA (s j) / (∑ m, if mask m then 0 else apx.expA (s m))

/-- Scaled dot-product multi-head attention, batch_first, with a per-batch
key padding mask: the core numeric computation (total function). -/
def mhaCore (apx : Apx) (H hd : ℕ) (P : MHAP (H * hd)) {B Sq Sk : ℕ}
    (q : Fin B → Fin Sq → Vec (H * hd)) (k v : Fin B → Fin Sk → Vec (H * hd))
    (mask : Fin B → Fin Sk → Bool) : Fin B → Fin Sq → Vec (H * hd) :=
  fun b i =>
    (LinearP.mk P.wo P.bo).ap (fun d =>
      ∑ j, mSoftmax apx (mask b)
          (fun m => (∑ c, (LinearP.mk P.wq P.bq).ap (q b i) (headIdx (headOf d) c) *
              (LinearP.mk P.wk P.bk).ap (k b m) (headIdx (headOf d) c)) *
            apx.invSqrtHd hd) j *
        (LinearP.mk P.wv P.bv).ap (v b j) d)

/-- `nn.MultiheadAttention` forward with key_padding_mask: returns `none`
when some batch row has every key masked (the all -inf softmax row that
produces NaN in torch), otherwise the core computation. -/
def mha (apx : Apx) (H hd : ℕ) (P : MHAP (H * hd)) {B Sq Sk : ℕ}
    (q : Fin B → Fin Sq → Vec (H * hd)) (k v : Fin B → Fin Sk → Vec (H * hd))
    (mask : Fin B → Fin Sk → Bool) :
    Option (Fin B → Fin Sq → Vec (H * hd)) :=
  if ∀ b, ∃ j, mask b j = false then some (mhaCore apx H hd P q k v mask)
  else none

/-- The post-attention feed-forward sub-block shared by SelfTransformer and
CrossTransformer: Sequential(LayerNorm(d), Linear(d, dff), ReLU, Dropout,
Linear(dff, d), LayerNorm(d)). -/
structure FFNP (d dff : ℕ) where
  lnA : LNP d
  fc1 : LinearP d dff
  fc2 : LinearP dff d
  lnB : LNP d

/-- Apply the feed-forward sub-block (dropout = identity at inference). -/
def FFNP.ap {d dff : ℕ} (apx : Apx) (P : FFNP d dff) (x : Vec d) : Vec d :=
  LNP.ap apx P.lnB
    (P.fc2.ap (fun m => relu (P.fc1.ap (LNP.ap apx P.lnA x) m)))

/-- Parameters of `SelfTransformer`: MultiheadAttention(128, 8, 0.1) plus
the ffn sub-block. -/
structure SelfTransformerP where
  self_attention : MHAP 128
  ffn : FFNP 128 512

/-- `SelfTransformer.forward(input, mask)`: query = key = value = input. -/
def SelfTransformerP.fwd (apx : Apx) (P : SelfTransformerP) {B S : ℕ}
    (input : Fin B → Fin S → Vec 128) (mask : Fin B → Fin S → Bool) :
    Option (Fin B → Fin S → Vec 128) :=
  (mha apx 8 16 P.self_attention input input input mask).map
    (fun a => fun b i => P.ffn.ap apx (a b i))

/-- Total value of `SelfTransformer.forward` (defined whenever no batch row
is fully masked). -/
def SelfTransformerP.fwdCore (apx : Apx) (P : SelfTransformerP) {B S : ℕ}
    (input : Fin B → Fin S → Vec 128) (mask : Fin B → Fin S → Bool) :
    Fin B → Fin S → Vec 128 :=
  fun b i => P.ffn.ap apx (mhaCore apx 8 16 P.self_attention input input input mask b i)

/-- Parameters of `CrossTransformer`. -/
structure CrossTransformerP where
  cross_attention : MHAP 128
  ffn : FFNP 128 512

/-- The mask-repair assignment `mask[:, 0] = False` of
`CrossTransformer.forward`, as a value (position 0 of the key axis is
forced unmasked). -/
def repairMask {B S : ℕ} (mask : Fin B → Fin S → Bool) : Fin B → Fin S → Bool :=
  fun b j => if j.1 = 0 then false else mask b j

/-- `CrossTransformer.forward(query, key, mask)`: value = key, the mask is
repaired at position 0, then attention and the ffn sub-block. -/
def CrossTransformerP.fwd (apx : Apx) (P : CrossTransformerP) {B Sq Sk : ℕ}
    (query : Fin B → Fin Sq → Vec 128) (key : Fin B → Fin Sk → Vec 128)
    (mask : Fin B → Fin Sk → Bool) : Option (Fin B → Fin Sq → Vec 128) :=
  (mha apx 8 16 P.cross_attention query key key (repairMask mask)).map
    (fun a => fun b i => P.ffn.ap apx (a b i))

/-- Total value of `CrossTransformer.forward`. -/
def CrossTransformerP.fwdCore (apx : Apx) (P : CrossTransformerP) {B Sq Sk : ℕ}
    (query : Fin B → Fin Sq → Vec 128) (key : Fin B → Fin Sk → Vec 128)
    (mask : Fin B → Fin Sk → Bool) : Fin B → Fin Sq → Vec 128 :=
  fun b i =>
    P.ffn.ap apx (mhaCore apx 8 16 P.cross_attention query key key (repairMask mask) b i)

/-- The i-th entry of `div_term` in `PositionalEncoding.__init__`:
exp((2 i) * (-log 10000 / d)). -/
def divTerm (apx : Apx) (d i : ℕ) : ℚ :=
  apx.expA ((2 * i : ℚ) * (-apx.ln10000 / d))

/-- The precomputed sin/cos table `pe` of `PositionalEncoding` (after the
permute, shape (1, L, d); we drop the leading size-1 axis): even channels
hold sin(pos * div_term), odd channels cos(pos * div_term). -/
def peTable (apx : Apx) (d L : ℕ) : Fin L → Vec d :=
  fun p c =>
    if c.1 % 2 = 0 then apx.sinA (p.1 * divTerm apx d (c.1 / 2))
    else apx.cosA (p.1 * divTerm apx d (c.1 / 2))

/-- `PositionalEncoding.forward` in the shape-correct case (the sequence
length equals max_len): x + pe, dropout = identity at inference. -/
def peForward (apx : Apx) (d L : ℕ) {B : ℕ} (x : Fin B → Fin L → Vec d) :
    Fin B → Fin L → Vec d :=
  fun b p c => x b p c + peTable apx d L p c

/-- Parameters of `AgentEncoder`: the two linear layers of the `position`
MLP and the `history` SelfTransformer (its PositionalEncoding buffer is
derived from `Apx`). -/
structure AgentEncoderP where
  position1 : LinearP 5 64
  position2 : LinearP 64 128
  history : SelfTransformerP

/-- The padding mask computed in `AgentEncoder.forward`: timestep t is
masked iff its first feature is 0 — except the final timestep, forced
unmasked by `mask[:, -1] = False`. -/
def agentMask {B : ℕ} (inputs : Fin B → Fin 11 → Vec 5) : Fin B → Fin 11 → Bool :=
  fun b t => if t.1 = 10 then false else decide (inputs b t 0 = 0)

/-- The per-timestep embedding of `AgentEncoder`: Linear(5,64), ReLU,
Linear(64,128), then positional encoding (max_len 11). -/
def agentEmbed (apx : Apx) (P : AgentEncoderP) {B : ℕ}
    (inputs : Fin B → Fin 11 → Vec 5) : Fin B → Fin 11 → Vec 128 :=
  peForward apx 128 11
    (fun b t => P.position2.ap (fun m => relu (P.position1.ap (inputs b t) m)))

/-- `AgentEncoder.forward`: embed, run the history SelfTransformer with the
repaired mask, take the final timestep. -/
def AgentEncoderP.fwd (apx : Apx) (P : AgentEncoderP) {B : ℕ}
    (inputs : Fin B → Fin 11 → Vec 5) : Option (Fin B → Vec 128) :=
  (P.history.fwd apx (agentEmbed apx P inputs) (agentMask inputs)).map
    (fun time => fun b => time b ⟨10, by omega⟩)

/-- Total value of `AgentEncoder.forward`. -/
def AgentEncoderP.fwdCore (apx : Apx) (P : AgentEncoderP) {B : ℕ}
    (inputs : Fin B → Fin 11 → Vec 5) : Fin B → Vec 128 :=
  fun b =>
    P.history.fwdCore apx (agentEmbed apx P inputs) (agentMask inputs) b ⟨10, by omega⟩

/-- Parameters of `MapEncoder`: the `waypoint` MLP Linear(4,64), ReLU,
Linear(64,128). -/
structure MapEncoderP where
  waypoint1 : LinearP 4 64
  waypoint2 : LinearP 64 128

/-- `MapEncoder.forward` on one waypoint feature vector (the module is
purely pointwise over the last axis). -/
def MapEncoderP.ap (P : MapEncoderP) (x : Vec 4) : Vec 128 :=
  P.waypoint2.ap (fun m => relu (P.waypoint1.ap x m))

/-- Parameters of `Agent2Agent`: two SelfTransformer stages. -/
structure Agent2AgentP where
  interaction_1 : SelfTransformerP
  interaction_2 : SelfTransformerP

/-- `Agent2Agent.forward`: stage 1 on the inputs, stage 2 on inputs +
stage-1 output, same mask both times. -/
def Agent2AgentP.fwd (apx : Apx) (P : Agent2AgentP) {B S : ℕ}
    (inputs : Fin B → Fin S → Vec 128) (mask : Fin B → Fin S → Bool) :
    Option (Fin B → Fin S → Vec 128) := do
  let o1 ← P.interaction_1.fwd apx inputs mask
  let o2 ← P.interaction_2.fwd apx (fun b i c => inputs b i c + o1 b i c) mask
  return o2

/-- Total value of `Agent2Agent.forward`. -/
def Agent2AgentP.fwdCore (apx : Apx) (P : Agent2AgentP) {B S : ℕ}
    (inputs : Fin B → Fin S → Vec 128) (mask : Fin B → Fin S → Bool) :
    Fin B → Fin S → Vec 128 :=
  P.interaction_2.fwdCore apx
    (fun b i c => inputs b i c + P.interaction_1.fwdCore apx inputs mask b i c) mask

/-- Sequence a finite family of options: `some` of the family of values iff
every member is `some`. -/
def seqFin {n : ℕ} {α : Type} (f : Fin n → Option α) : Option (Fin n → α) :=
  if h : ∀ i, (f i).isSome then some (fun i => (f i).get (h i)) else none

/-- Parameters of `Agent2Map`: the per-lane and across-lanes
CrossTransformers (its PositionalEncoding buffer is derived from `Apx`). -/
structure Agent2MapP where
  lane : CrossTransformerP
  map : CrossTransformerP

/-- `Agent2Map.forward(actor, waypoints, mask)`: per-lane cross-attention of
the length-1 actor query against the positionally-encoded waypoints of that
lane, concatenated over lanes, then cross-attention across lanes with the
lane mask sampled at waypoint 10; squeeze the length-1 query axis. -/
def Agent2MapP.fwd (apx : Apx) (P : Agent2MapP) {B Nl : ℕ}
    (actor : Fin B → Vec 128) (waypoints : Fin B → Fin Nl → Fin 51 → Vec 128)
    (mask : Fin B → Fin Nl → Fin 51 → Bool) : Option (Fin B → Vec 128) := do
  let lanes ← seqFin (fun i =>
    (P.lane.fwd apx (fun b (_ : Fin 1) => actor b)
        (peForward apx 128 51 (fun b w => waypoints b i w))
        (fun b w => mask b i w)).map (fun r => fun b => r b 0))
  let mp ← P.map.fwd apx (fun b (_ : Fin 1) => actor b)
    (fun b i => lanes i b) (fun b i => mask b i ⟨10, by omega⟩)
  return fun b => mp b 0

/-- Total value of `Agent2Map.forward`. -/
def Agent2MapP.fwdCore (apx : Apx) (P : Agent2MapP) {B Nl : ℕ}
    (actor : Fin B → Vec 128) (waypoints : Fin B → Fin Nl → Fin 51 → Vec 128)
    (mask : Fin B → Fin Nl → Fin 51 → Bool) : Fin B → Vec 128 :=
  fun b =>
    P.map.fwdCore apx (fun b2 (_ : Fin 1) => actor b2)
      (fun b2 i =>
        P.lane.fwdCore apx (fun b3 (_ : Fin 1) => actor b3)
          (peForward apx 128 51 (fun b3 w => waypoints b3 i w))
          (fun b3 w => mask b3 i w) b2 0)
      (fun b2 i => mask b2 i ⟨10, by omega⟩) b 0

/-- Parameters of one `nn.TransformerEncoderLayer(d_model=384, nhead=8,
dim_feedforward=1024, dropout=0.1, batch_first=True)` (post-norm, ReLU
activation, the torch defaults). -/
structure TELayerP where
  self_attn : MHAP 384
  lin1 : LinearP 384 1024
  lin2 : LinearP 1024 384
  ln1 : LNP 384
  ln2 : LNP 384

/-- Apply the transformer-encoder layer (no attention mask is passed in the
source, so the key padding mask is all-false and attention is total):
x1 = LN1(x + SelfAttn(x)); out = LN2(x1 + Linear2(ReLU(Linear1(x1)))),
dropouts = identity at inference. -/
def TELayerP.ap (apx : Apx) (P : TELayerP) {B S : ℕ}
    (x : Fin B → Fin S → Vec 384) : Fin B → Fin S → Vec 384 :=
  fun b i =>
    LNP.ap apx P.ln2 (fun c =>
      LNP.ap apx P.ln1 (fun c2 =>
        x b i c2 + mhaCore apx 8 48 P.self_attn x x x (fun _ _ => false) b i c2) c +
      P.lin2.ap (fun m =>
        relu (P.lin1.ap
          (LNP.ap apx P.ln1 (fun c2 =>
            x b i c2 + mhaCore apx 8 48 P.self_attn x x x (fun _ _ => false) b i c2)) m)) c)

/-- Parameters of `Decoder`: the interaction flag fixed at construction,
the plan/state input projections (plan_input exists only in interaction
mode; carrying it unconditionally is harmless since the non-interaction
branch never reads it), the single transformer-encoder layer and the
two-layer decode head.  The constructed-but-never-applied
PositionalEncoding buffer has no parameters. -/
structure DecoderP where
  use_interaction : Bool
  plan_input : LinearP 3 384
  state_input : LinearP 3 384
  te : TELayerP
  dec1 : LinearP 384 64
  dec2 : LinearP 64 3

/-- The per-step input features of `Decoder.forward` before the context is
added: state_input(current_state) + plan_input(plan[:, t, :3]) * gate in
interaction mode, state_input(current_state) otherwise. -/
def DecoderP.stepFeat (P : DecoderP) {B Tf Fp : ℕ}
    (plan : Fin B → Fin Tf → Vec Fp) (hTf : 30 ≤ Tf) (hFp : 3 ≤ Fp)
    (gate : Fin B → ℚ) (cur : Fin B → Vec 3) (t : Fin 30) : Fin B → Vec 384 :=
  fun b c =>
    if P.use_interaction then
      P.state_input.ap (cur b) c +
        P.plan_input.ap (fun j => plan b (Fin.castLE hTf t) (Fin.castLE hFp j)) c * gate b
    else P.state_input.ap (cur b) c

/-- The length-1 sequence handed to the transformer-encoder layer at one
decoder step: the step features plus the constant context vector
(`current_input + init_hidden`, unsqueezed).  No positional encoding is
applied (the `pos_encoding` module of `Decoder` is never called in
`Decoder.forward`). -/
def DecoderP.stepSeq (P : DecoderP) {B Tf Fp : ℕ}
    (init_hidden : Fin B → Vec 384)
    (plan : Fin B → Fin Tf → Vec Fp) (hTf : 30 ≤ Tf) (hFp : 3 ≤ Fp)
    (gate : Fin B → ℚ) (cur : Fin B → Vec 3) (t : Fin 30) :
    Fin B → Fin 1 → Vec 384 :=
  fun b _ c => P.stepFeat plan hTf hFp gate cur t b c + init_hidden b c

/-- The state delta decoded at one step: transformer on the length-1
sequence, squeeze, then Dropout, Linear(384,64), ELU, Linear(64,3). -/
def DecoderP.stepUpd (apx : Apx) (P : DecoderP) {B Tf Fp : ℕ}
    (init_hidden : Fin B → Vec 384)
    (plan : Fin B → Fin Tf → Vec Fp) (hTf : 30 ≤ Tf) (hFp : 3 ≤ Fp)
    (gate : Fin B → ℚ) (cur : Fin B → Vec 3) (t : Fin 30) : Fin B → Vec 3 :=
  fun b =>
    P.dec2.ap (fun m =>
      elu apx (P.dec1.ap
        (TELayerP.ap apx P.te (P.stepSeq init_hidden plan hTf hFp gate cur t) b 0) m))

/-- One decoder step: next_state = current_state + state_update (the
`.detach().clone()` of the source is the numeric identity). -/
def DecoderP.stepNext (apx : Apx) (P : DecoderP) {B Tf Fp : ℕ}
    (init_hidden : Fin B → Vec 384)
    (plan : Fin B → Fin Tf → Vec Fp) (hTf : 30 ≤ Tf) (hFp : 3 ≤ Fp)
    (gate : Fin B → ℚ) (cur : Fin B → Vec 3) (t : Fin 30) : Fin B → Vec 3 :=
  fun b j => cur b j + P.stepUpd apx init_hidden plan hTf hFp gate cur t b j

/-- The current_state value entering step n of the rollout (state 0 is the
first three components of init_state). -/
def DecoderP.states (apx : Apx) (P : DecoderP) {B Tf Fp Fs : ℕ}
    (init_hidden : Fin B → Vec 384)
    (plan : Fin B → Fin Tf → Vec Fp) (hTf : 30 ≤ Tf) (hFp : 3 ≤ Fp)
    (gate : Fin B → ℚ) (init_state : Fin B → Vec Fs) (hFs : 3 ≤ Fs) :
    ℕ → Fin B → Vec 3
  | 0 => fun b j => init_state b (Fin.castLE hFs j)
  | n + 1 =>
    if h : n < 30 then
      P.stepNext apx init_hidden plan hTf hFp gate
        (P.states apx init_hidden plan hTf hFp gate init_state hFs n) ⟨n, h⟩
    else P.states apx init_hidden plan hTf hFp gate init_state hFs n

/-- `Decoder.forward(init_hidden, plan, gate, init_state)`: the stacked
list of the 30 per-step next_state values. -/
def DecoderP.fwd (apx : Apx) (P : DecoderP) {B Tf Fp Fs : ℕ}
    (init_hidden : Fin B → Vec 384)
    (plan : Fin B → Fin Tf → Vec Fp) (hTf : 30 ≤ Tf) (hFp : 3 ≤ Fp)
    (gate : Fin B → ℚ) (init_state : Fin B → Vec Fs) (hFs : 3 ≤ Fs) :
    Fin B → Fin 30 → Vec 3 :=
  fun b t => P.states apx init_hidden plan hTf hFp gate init_state hFs (t.1 + 1) b

/-- The delta emitted at step t of the rollout (the state_update of that
iteration, evaluated at the state actually entering the step). -/
def DecoderP.deltaAt (apx : Apx) (P : DecoderP) {B Tf Fp Fs : ℕ}
    (init_hidden : Fin B → Vec 384)
    (plan : Fin B → Fin Tf → Vec Fp) (hTf : 30 ≤ Tf) (hFp : 3 ≤ Fp)
    (gate : Fin B → ℚ) (init_state : Fin B → Vec Fs) (hFs : 3 ≤ Fs)
    (t : Fin 30) : Fin B → Vec 3 :=
  P.stepUpd apx init_hidden plan hTf hFp gate
    (P.states apx init_hidden plan hTf hFp gate init_state hFs t.1) t

/-- Concatenate two 128-vectors along the feature axis. -/
def cat2 (x y : Vec 128) : Vec 256 :=
  fun c => if h : c.1 < 128 then x ⟨c.1, h⟩ else y ⟨c.1 - 128, by omega⟩

/-- Concatenate three 128-vectors along the feature axis (the order of
`torch.cat([agent_map, encoded_neighbors[i], agent_agent[:, i+1]], -1)`). -/
def cat3 (x y z : Vec 128) : Vec 384 :=
  fun c =>
    if h : c.1 < 128 then x ⟨c.1, h⟩
    else if h2 : c.1 < 256 then y ⟨c.1 - 128, by omega⟩
    else z ⟨c.1 - 256, by omega⟩

/-- Parameters of `Predictor`: note `ego_net` and `neighbor_net` are two
separate `AgentEncoder` instances (each with its own parameters), while
`map_net` is a single `MapEncoder` shared by ego map and neighbor maps. -/
structure PredictorP where
  ego_net : AgentEncoderP
  neighbor_net : AgentEncoderP
  map_net : MapEncoderP
  agent_map : Agent2MapP
  agent_agent : Agent2AgentP
  gate1 : LinearP 256 64
  gate2 : LinearP 64 1
  decoder : DecoderP

/-- The `gate` head of `Predictor`: Linear(256,64), ReLU, Linear(64,1),
Sigmoid, producing a scalar. -/
def PredictorP.gateAp (apx : Apx) (P : PredictorP) (x : Vec 256) : ℚ :=
  sigmoid apx (P.gate2.ap (fun m => relu (P.gate1.ap x m)) 0)

/-- One entry of the observation mapping handed to `Predictor.forward`:
one of the four recognized keys with its tensor, or an unrecognized key. -/
inductive ObsEntry (B Nn Nl : ℕ) where
  | ego_state (v : Fin B → Fin 11 → Vec 5)
  | neighbors_state (v : Fin B → Fin Nn → Fin 11 → Vec 5)
  | ego_map (v : Fin B → Fin Nl → Fin 51 → Vec 4)
  | neighbors_map (v : Fin B → Fin Nn → Fin Nl → Fin 51 → Vec 4)
  | other (key : String)

/-- Python-level failures of `Predictor.forward`: the `raise KeyError` on an
unrecognized observation key, an UnboundLocalError-style reference to a
local variable never assigned in the key loop, and the RuntimeError torch
raises on `torch.stack` of an empty tensor list (line 243 when there are
zero neighbors). -/
inductive PredErr where
  | keyError
  | nameError (localName : String)
  | runtimeError
deriving DecidableEq

/-- The local variables assigned by the key loop of `Predictor.forward`
(`none` = never assigned).  Encodings of agents are `Option`-valued inside
(the NaN-poisoning channel of attention); map encodings are total. -/
structure ObsLocals (B Nn Nl : ℕ) where
  ego : Option (Fin B → Fin 11 → Vec 5) := none
  neighbors : Option (Fin B → Fin Nn → Fin 11 → Vec 5) := none
  ego_map : Option (Fin B → Fin Nl → Fin 51 → Vec 4) := none
  neighbor_map : Option (Fin B → Fin Nn → Fin Nl → Fin 51 → Vec 4) := none
  encoded_ego : Option (Option (Fin B → Vec 128)) := none
  encoded_neighbors : Option (Fin Nn → Option (Fin B → Vec 128)) := none
  encoded_ego_map : Option (Fin B → Fin Nl → Fin 51 → Vec 128) := none
  encoded_neighbor_map : Option (Fin B → Fin Nn → Fin Nl → Fin 51 → Vec 128) := none

/-- One iteration of the key loop: recognized keys store the raw tensor and
its encoding (ego via `ego_net`, every neighbor via the shared
`neighbor_net`, both maps via the shared `map_net`); any other key raises
KeyError. -/
def obsStep (apx : Apx) (P : PredictorP) {B Nn Nl : ℕ} (st : ObsLocals B Nn Nl) :
    ObsEntry B Nn Nl → Except PredErr (ObsLocals B Nn Nl)
  | .ego_state v =>
    .ok { st with ego := some v, encoded_ego := some (P.ego_net.fwd apx v) }
  | .neighbors_state v =>
    .ok { st with
          neighbors := some v,
          encoded_neighbors :=
            some (fun i => P.neighbor_net.fwd apx (fun b t => v b i t)) }
  | .ego_map v =>
    .ok { st with
          ego_map := some v,
          encoded_ego_map := some (fun b l w => P.map_net.ap (v b l w)) }
  | .neighbors_map v =>
    .ok { st with
          neighbor_map := some v,
          encoded_neighbor_map := some (fun b i l w => P.map_net.ap (v b i l w)) }
  | .other _ => .error .keyError

/-- The key loop of `Predictor.forward` over the observation entries. -/
def obsLoop (apx : Apx) (P : PredictorP) {B Nn Nl : ℕ}
    (obs : List (ObsEntry B Nn Nl)) : Except PredErr (ObsLocals B Nn Nl) :=
  obs.foldlM (obsStep apx P) {}

/-- Read a local variable after the loop: referencing a never-assigned
local raises an UnboundLocalError naming it. -/
def getLocal {α : Type} (x : Option α) (nm : String) : Except PredErr α :=
  match x with
  | some v => .ok v
  | none => .error (.nameError nm)

/-- The computation of `Predictor.forward` after the key loop (lines
224-245) in the Nn > 0 case: agent-agent interaction with the
last-timestep validity mask (ego slot forced valid), per-neighbor
agent-map attention and 384-dim context, per-neighbor gate and decoder
rollout, stacked along the neighbor axis.  `none` = NaN poisoning from a
fully-masked attention row.  (With zero neighbors the source instead
raises a RuntimeError at `torch.stack([])`, line 243; `forward` raises it
before calling this, see there.) -/
def predictorCore (apx : Apx) (P : PredictorP) {B Nn Nl Tf Fp : ℕ}
    (ego : Fin B → Fin 11 → Vec 5) (neighbors : Fin B → Fin Nn → Fin 11 → Vec 5)
    (neighbor_map : Fin B → Fin Nn → Fin Nl → Fin 51 → Vec 4)
    (encoded_ego : Option (Fin B → Vec 128))
    (encoded_neighbors : Fin Nn → Option (Fin B → Vec 128))
    (encoded_neighbor_map : Fin B → Fin Nn → Fin Nl → Fin 51 → Vec 128)
    (plan : Fin B → Fin Tf → Vec Fp) (hTf : 30 ≤ Tf) (hFp : 3 ≤ Fp) :
    Option (Fin B → Fin Nn → Fin 30 → Vec 3) := do
  let ee ← encoded_ego
  let en ← seqFin encoded_neighbors
  let agent_agent ← P.agent_agent.fwd apx
    (fun b a => Fin.cases (ee b) (fun i => en i b) a)
    (fun b a =>
      if a.1 = 0 then false
      else Fin.cases (decide (ego b ⟨10, by omega⟩ 0 = 0))
        (fun i => decide (neighbors b i ⟨10, by omega⟩ 0 = 0)) a)
  let ctx ← seqFin (fun i : Fin Nn =>
    (P.agent_map.fwd apx (fun b => agent_agent b i.succ)
        (fun b l w => encoded_neighbor_map b i l w)
        (fun b l w => decide (neighbor_map b i l w 3 = 0))).map
      (fun am => fun b => cat3 (am b) (en i b) (agent_agent b i.succ)))
  return fun b i t =>
    P.decoder.fwd apx (ctx i) plan hTf hFp
      (fun b2 => P.gateAp apx (cat2 (ee b2) (en i b2)))
      (fun b2 => neighbors b2 i ⟨10, by omega⟩) (by omega) b t

/-- `Predictor.forward(observations, plan)`: run the key loop, then read
the locals the post-loop code references, in program order.  `ego_map` and
`encoded_ego_map` are assigned by the loop but never referenced afterwards;
`neighbor_map` and `encoded_neighbor_map` are referenced only inside the
`for i in range(neighbors.shape[1])` loops (lines 231-241), so they are
read only when there is at least one neighbor — with zero neighbors both
loops are empty, no further local is read, and the call reaches
`torch.stack(per_agent_prediction_list, dim=1)` on the empty list
(line 243), a RuntimeError. -/
def PredictorP.forward (apx : Apx) (P : PredictorP) {B Nn Nl Tf Fp : ℕ}
    (obs : List (ObsEntry B Nn Nl))
    (plan : Fin B → Fin Tf → Vec Fp) (hTf : 30 ≤ Tf) (hFp : 3 ≤ Fp) :
    Except PredErr (Option (Fin B → Fin Nn → Fin 30 → Vec 3)) := do
  let st ← obsLoop apx P obs
  let ee ← getLocal st.encoded_ego "encoded_ego"
  let en ← getLocal st.encoded_neighbors "encoded_neighbors"
  let ego ← getLocal st.ego "ego"
  let neighbors ← getLocal st.neighbors "neighbors"
  if 0 < Nn then
    let neighbor_map ← getLocal st.neighbor_map "neighbor_map"
    let enm ← getLocal st.encoded_neighbor_map "encoded_neighbor_map"
    return predictorCore apx P ego neighbors neighbor_map ee en enm plan hTf hFp
  else
    throw PredErr.runtimeError

/-- torch broadcasting rule for one pair of dimensions: equal sizes pass
through, a size-1 dimension stretches to the other, anything else is a
runtime size-mismatch error. -/
def broadcastDim (a b : ℕ) : Option ℕ :=
  if a = b then some a else if a = 1 then some b else if b = 1 then some a else none

/-- Result shape of adding two 3-D tensors under torch broadcasting. -/
def torchAddShape (a1 a2 a3 b1 b2 b3 : ℕ) : Option (ℕ × ℕ × ℕ) := do
  let c1 ← broadcastDim a1 b1
  let c2 ← broadcastDim a2 b2
  let c3 ← broadcastDim a3 b3
  return (c1, c2, c3)

/-- Shape behaviour of `x = x + self.pe` in `PositionalEncoding.forward`:
x has shape (B, S, d) and the buffer pe has shape (1, L, d) with L the
configured max_len. -/
def peAddShape (B S d L : ℕ) : Option (ℕ × ℕ × ℕ) := torchAddShape B S d 1 L d

/-- A concrete kernel instance: exp ↦ 1, sin ↦ 0, cos ↦ 1, rsqrt ↦ 1,
attention scale ↦ 1, log 10000 ↦ 0 (consistent with the constraints the
structure demands). -/
def apx0 : Apx where
  expA := fun _ => 1
  expA_pos := fun _ => one_pos
  sinA := fun _ => 0
  cosA := fun _ => 1
  sinA_zero := rfl
  cosA_zero := rfl
  rsqrtA := fun _ => 1
  invSqrtHd := fun _ => 1
  ln10000 := 0

/-- A second kernel instance, agreeing with `apx0` on exp, rsqrt and the
attention scale but not on the positional-encoding inputs. -/
def apx1 : Apx := { apx0 with ln10000 := 1, sinA := fun x => x, sinA_zero := rfl }

/-- All-zero linear layer. -/
def lin0 (i o : ℕ) : LinearP i o := ⟨fun _ _ => 0, fun _ => 0⟩

/-- All-zero layer norm (gamma = 0, beta = 0). -/
def ln0 (d : ℕ) : LNP d := ⟨fun _ => 0, fun _ => 0⟩

/-- All-zero multi-head attention parameters. -/
def mhap0 (d : ℕ) : MHAP d :=
  ⟨fun _ _ => 0, fun _ => 0, fun _ _ => 0, fun _ => 0,
   fun _ _ => 0, fun _ => 0, fun _ _ => 0, fun _ => 0⟩

/-- All-zero feed-forward sub-block. -/
def ffn0 : FFNP 128 512 := ⟨ln0 128, lin0 128 512, lin0 512 128, ln0 128⟩

/-- A feed-forward sub-block whose final LayerNorm has gamma = 0 and
beta = 1: it maps every input to the all-ones vector. -/
def ffnOne : FFNP 128 512 :=
  ⟨ln0 128, lin0 128 512, lin0 512 128, ⟨fun _ => 0, fun _ => 1⟩⟩

/-- All-zero SelfTransformer. -/
def st0 : SelfTransformerP := ⟨mhap0 128, ffn0⟩

/-- All-zero CrossTransformer. -/
def ct0 : CrossTransformerP := ⟨mhap0 128, ffn0⟩

/-- All-zero AgentEncoder. -/
def ae0 : AgentEncoderP := ⟨lin0 5 64, lin0 64 128, st0⟩

/-- An AgentEncoder constant-one on every input (its history transformer
ends in `ffnOne`). -/
def aeOne : AgentEncoderP := ⟨lin0 5 64, lin0 64 128, ⟨mhap0 128, ffnOne⟩⟩

/-- All-zero Decoder with `use_interaction = False`. -/
def dec0 : DecoderP :=
  ⟨false, lin0 3 384, lin0 3 384,
   ⟨mhap0 384, lin0 384 1024, lin0 1024 384, ln0 384, ln0 384⟩,
   lin0 384 64, lin0 64 3⟩

/-- All-zero Decoder with `use_interaction = True`. -/
def decInter : DecoderP := { dec0 with use_interaction := true }

/-- All-zero Predictor (with the non-interaction decoder). -/
def pred0 : PredictorP :=
  ⟨ae0, ae0, ⟨lin0 4 64, lin0 64 128⟩, ⟨ct0, ct0⟩, ⟨st0, st0⟩,
   lin0 256 64, lin0 64 1, dec0⟩

/-- A Predictor whose two AgentEncoder instances have different
parameters: `ego_net` is all-zero, `neighbor_net` is `aeOne`. -/
def predSplit : PredictorP := { pred0 with neighbor_net := aeOne }

/-- Concrete all-zero tensors at B = N_n = N_l = 1. -/
def zEgo : Fin 1 → Fin 11 → Vec 5 := fun _ _ _ => 0

def zNbr : Fin 1 → Fin 1 → Fin 11 → Vec 5 := fun _ _ _ _ => 0

def zEgoMap : Fin 1 → Fin 1 → Fin 51 → Vec 4 := fun _ _ _ _ => 0

def zNbrMap : Fin 1 → Fin 1 → Fin 1 → Fin 51 → Vec 4 := fun _ _ _ _ _ => 0

def zPlan : Fin 1 → Fin 30 → Vec 3 := fun _ _ _ => 0

def onePlan : Fin 1 → Fin 30 → Vec 3 := fun _ _ _ => 1

def zHid : Fin 1 → Vec 384 := fun _ _ => 0

def zCur : Fin 1 → Vec 3 := fun _ _ => 0

def zGate : Fin 1 → ℚ := fun _ => 0

def zState5 : Fin 1 → Vec 5 := fun _ _ => 0

def zNbr2 : Fin 1 → Fin 2 → Fin 11 → Vec 5 := fun _ _ _ _ => 0

def zQ1 : Fin 1 → Fin 1 → Vec 128 := fun _ _ _ => 0

/-- A mask flagging every key position invalid. -/
def maskT : Fin 1 → Fin 1 → Bool := fun _ _ => true

/-- The stacked agent embeddings of `Predictor.forward` (ego at slot 0,
neighbor i at slot i+1), with both encoders evaluated at their total
values. -/
def encodedActors (apx : Apx) (P : PredictorP) {B Nn : ℕ}
    (ego : Fin B → Fin 11 → Vec 5) (neighbors : Fin B → Fin Nn → Fin 11 → Vec 5) :
    Fin B → Fin (Nn + 1) → Vec 128 :=
  fun b a =>
    Fin.cases (P.ego_net.fwdCore apx ego b)
      (fun i => P.neighbor_net.fwdCore apx (fun b2 t => neighbors b2 i t) b) a

/-- The repaired agent-validity mask of `Predictor.forward`: agent slot a is
masked iff its final-timestep first feature is 0, except slot 0 (ego),
forced unmasked. -/
def actorMaskR {B Nn : ℕ} (ego : Fin B → Fin 11 → Vec 5)
    (neighbors : Fin B → Fin Nn → Fin 11 → Vec 5) : Fin B → Fin (Nn + 1) → Bool :=
  fun b a =>
    if a.1 = 0 then false
    else Fin.cases (decide (ego b ⟨10, by omega⟩ 0 = 0))
      (fun i => decide (neighbors b i ⟨10, by omega⟩ 0 = 0)) a

/-- The interaction-aware agent embeddings (total value of the Agent2Agent
stage of `Predictor.forward`). -/
def interactionEmb (apx : Apx) (P : PredictorP) {B Nn : ℕ}
    (ego : Fin B → Fin 11 → Vec 5) (neighbors : Fin B → Fin Nn → Fin 11 → Vec 5) :
    Fin B → Fin (Nn + 1) → Vec 128 :=
  P.agent_agent.fwdCore apx (encodedActors apx P ego neighbors) (actorMaskR ego neighbors)

/-- The 384-dim per-neighbor context vector of `Predictor.forward`
(cat of map context, raw neighbor embedding, interaction embedding). -/
def neighborCtx (apx : Apx) (P : PredictorP) {B Nn Nl : ℕ}
    (ego : Fin B → Fin 11 → Vec 5) (neighbors : Fin B → Fin Nn → Fin 11 → Vec 5)
    (neighbor_map : Fin B → Fin Nn → Fin Nl → Fin 51 → Vec 4)
    (encoded_neighbor_map : Fin B → Fin Nn → Fin Nl → Fin 51 → Vec 128)
    (i : Fin Nn) : Fin B → Vec 384 :=
  fun b =>
    cat3
      (P.agent_map.fwdCore apx (fun b2 => interactionEmb apx P ego neighbors b2 i.succ)
        (fun b2 l w => encoded_neighbor_map b2 i l w)
        (fun b2 l w => decide (neighbor_map b2 i l w 3 = 0)) b)
      (P.neighbor_net.fwdCore apx (fun b2 t => neighbors b2 i t) b)
      (interactionEmb apx P ego neighbors b i.succ)

/-- The total value of the post-loop computation of `Predictor.forward`. -/
def predictorVal (apx : Apx) (P : PredictorP) {B Nn Nl Tf Fp : ℕ}
    (ego : Fin B → Fin 11 → Vec 5) (neighbors : Fin B → Fin Nn → Fin 11 → Vec 5)
    (neighbor_map : Fin B → Fin Nn → Fin Nl → Fin 51 → Vec 4)
    (encoded_neighbor_map : Fin B → Fin Nn → Fin Nl → Fin 51 → Vec 128)
    (plan : Fin B → Fin Tf → Vec Fp) (hTf : 30 ≤ Tf) (hFp : 3 ≤ Fp) :
    Fin B → Fin Nn → Fin 30 → Vec 3 :=
  fun b i t =>
    P.decoder.fwd apx (neighborCtx apx P ego neighbors neighbor_map encoded_neighbor_map i)
      plan hTf hFp
      (fun b2 => P.gateAp apx (cat2 (P.ego_net.fwdCore apx ego b2)
        (P.neighbor_net.fwdCore apx (fun b3 t2 => neighbors b3 i t2) b2)))
      (fun b2 => neighbors b2 i ⟨10, by omega⟩) (by omega) b t

/-- Flatten a 4-axis tensor to nested lists (the value-level view of the
prediction tensor). -/
def toL4 {B Nn T F : ℕ} (x : Fin B → Fin Nn → Fin T → Vec F) :
    List (List (List (List ℚ))) :=
  List.ofFn (fun b => List.ofFn (fun n => List.ofFn (fun t => List.ofFn (fun j => x b n t j))))

/-- A nested list has (rectangular) shape (a, b, c, d). -/
def hasShape4 (l : List (List (List (List ℚ)))) (a b c d : ℕ) : Prop :=
  l.length = a ∧ ∀ x ∈ l, x.length = b ∧ ∀ y ∈ x, y.length = c ∧ ∀ z ∈ y, z.length = d


/-- `mha` succeeds (returns its core value) whenever every batch row has at
least one unmasked key. -/
theorem mha_eq_some (apx : Apx) (H hd : ℕ) (P : MHAP (H * hd)) {B Sq Sk : ℕ}
    (q : Fin B → Fin Sq → Vec (H * hd)) (k v : Fin B → Fin Sk → Vec (H * hd))
    (mask : Fin B → Fin Sk → Bool) (hm : ∀ b, ∃ j, mask b j = false) :
    mha apx H hd P q k v mask = some (mhaCore apx H hd P q k v mask) := by
  unfold mha
  rw [if_pos hm]

/-- `SelfTransformer.forward` succeeds whenever every batch row has at
least one unmasked key. -/
theorem st_fwd_eq_some (apx : Apx) (P : SelfTransformerP) {B S : ℕ}
    (input : Fin B → Fin S → Vec 128) (mask : Fin B → Fin S → Bool)
    (hm : ∀ b, ∃ j, mask b j = false) :
    P.fwd apx input mask = some (P.fwdCore apx input mask) := by
  unfold SelfTransformerP.fwd SelfTransformerP.fwdCore
  rw [mha_eq_some apx 8 16 P.self_attention input input input mask hm]
  rfl

/-- The repaired mask of `CrossTransformer.forward` is unmasked at key
position 0 for every batch row. -/
theorem repairMask_zero {B S : ℕ} (mask : Fin B → Fin S → Bool) (hS : 0 < S)
    (b : Fin B) : repairMask mask b ⟨0, hS⟩ = false := rfl

/-- `CrossTransformer.forward` succeeds for every input with a nonempty key
axis: the mask repair guarantees an unmasked key in every row. -/
theorem ct_fwd_eq_some (apx : Apx) (P : CrossTransformerP) {B Sq Sk : ℕ}
    (query : Fin B → Fin Sq → Vec 128) (key : Fin B → Fin Sk → Vec 128)
    (mask : Fin B → Fin Sk → Bool) (hSk : 0 < Sk) :
    P.fwd apx query key mask = some (P.fwdCore apx query key mask) := by
  unfold CrossTransformerP.fwd CrossTransformerP.fwdCore
  rw [mha_eq_some apx 8 16 P.cross_attention query key key (repairMask mask)
    (fun b => ⟨⟨0, hSk⟩, repairMask_zero mask hSk b⟩)]
  rfl

/-- The agent-history mask is unmasked at the final timestep for every
batch row (the `mask[:, -1] = False` repair). -/
theorem agentMask_last {B : ℕ} (inputs : Fin B → Fin 11 → Vec 5) (b : Fin B) :
    agentMask inputs b ⟨10, by omega⟩ = false := rfl

/-- `AgentEncoder.forward` always succeeds: the forced-unmasked final
timestep rules out a fully-masked history row. -/
theorem ae_fwd_eq_some (apx : Apx) (P : AgentEncoderP) {B : ℕ}
    (inputs : Fin B → Fin 11 → Vec 5) :
    P.fwd apx inputs = some (P.fwdCore apx inputs) := by
  unfold AgentEncoderP.fwd AgentEncoderP.fwdCore
  rw [st_fwd_eq_some apx P.history (agentEmbed apx P inputs) (agentMask inputs)
    (fun b => ⟨⟨10, by omega⟩, agentMask_last inputs b⟩)]
  rfl

/-- `Agent2Agent.forward` succeeds whenever every batch row of the agent
mask has at least one unmasked agent (the caller forces slot 0). -/
theorem aa_fwd_eq_some (apx : Apx) (P : Agent2AgentP) {B S : ℕ}
    (inputs : Fin B → Fin S → Vec 128) (mask : Fin B → Fin S → Bool)
    (hm : ∀ b, ∃ j, mask b j = false) :
    P.fwd apx inputs mask = some (P.fwdCore apx inputs mask) := by
  unfold Agent2AgentP.fwd Agent2AgentP.fwdCore
  rw [st_fwd_eq_some apx P.interaction_1 inputs mask hm]
  show (P.interaction_2.fwd apx _ mask).bind _ = _
  rw [st_fwd_eq_some apx P.interaction_2
    (fun b i c => inputs b i c + P.interaction_1.fwdCore apx inputs mask b i c) mask hm]
  rfl

/-- `seqFin` of a family of successes is the success of the family. -/
theorem seqFin_eq_some {n : ℕ} {α : Type} (f : Fin n → Option α) (g : Fin n → α)
    (h : ∀ i, f i = some (g i)) : seqFin f = some g := by
  unfold seqFin
  have hs : ∀ i, (f i).isSome := fun i => by rw [h i]; rfl
  rw [dif_pos hs]
  congr 1
  funext i
  have h2 := h i
  rw [Option.get_of_mem (hs i) h2]

/-- `Agent2Map.forward` succeeds for every input with at least one lane:
the per-lane CrossTransformers are repaired over the 51 waypoints and the
across-lanes CrossTransformer is repaired over the nonempty lane axis. -/
theorem a2m_fwd_eq_some (apx : Apx) (P : Agent2MapP) {B Nl : ℕ}
    (actor : Fin B → Vec 128) (waypoints : Fin B → Fin Nl → Fin 51 → Vec 128)
    (mask : Fin B → Fin Nl → Fin 51 → Bool) (hNl : 0 < Nl) :
    P.fwd apx actor waypoints mask = some (P.fwdCore apx actor waypoints mask) := by
  unfold Agent2MapP.fwd Agent2MapP.fwdCore
  rw [seqFin_eq_some _ (fun i b =>
    P.lane.fwdCore apx (fun b2 (_ : Fin 1) => actor b2)
      (peForward apx 128 51 (fun b2 w => waypoints b2 i w))
      (fun b2 w => mask b2 i w) b 0)
    (fun i => by
      rw [ct_fwd_eq_some apx P.lane _ _ _ (by omega)]
      rfl)]
  show (P.map.fwd apx _ _ _).bind _ = _
  rw [ct_fwd_eq_some apx P.map (fun b (_ : Fin 1) => actor b) _
    (fun b i => mask b i ⟨10, by omega⟩) hNl]
  rfl

/-- `seqFin` on a family of literal successes. -/
theorem seqFin_some {n : ℕ} {α : Type} (g : Fin n → α) :
    seqFin (fun i => some (g i)) = some g :=
  seqFin_eq_some _ g (fun _ => rfl)

/-- `Agent2Agent.forward` on a mask whose slot 0 is forced unmasked (the
shape produced by `actor_mask[:, 0] = False` in `Predictor.forward`)
always succeeds. -/
theorem aa_fwd_repaired_eq_some (apx : Apx) (P : Agent2AgentP) {B n : ℕ}
    (inputs : Fin B → Fin (n + 1) → Vec 128) (m : Fin B → Fin (n + 1) → Bool) :
    P.fwd apx inputs (fun b a => if a.1 = 0 then false else m b a) =
      some (P.fwdCore apx inputs (fun b a => if a.1 = 0 then false else m b a)) :=
  aa_fwd_eq_some apx P inputs _ (fun _ => ⟨⟨0, Nat.succ_pos n⟩, rfl⟩)

/-- The post-loop computation of `Predictor.forward` succeeds whenever the
map has at least one lane: every attention stage is protected by a
mask-repair rule, so the NaN channel is unreachable. -/
theorem predictorCore_eq_some (apx : Apx) (P : PredictorP) {B Nn Nl Tf Fp : ℕ}
    (ego : Fin B → Fin 11 → Vec 5) (neighbors : Fin B → Fin Nn → Fin 11 → Vec 5)
    (neighbor_map : Fin B → Fin Nn → Fin Nl → Fin 51 → Vec 4)
    (encoded_neighbor_map : Fin B → Fin Nn → Fin Nl → Fin 51 → Vec 128)
    (plan : Fin B → Fin Tf → Vec Fp) (hTf : 30 ≤ Tf) (hFp : 3 ≤ Fp) (hNl : 0 < Nl) :
    predictorCore apx P ego neighbors neighbor_map
      (P.ego_net.fwd apx ego)
      (fun i => P.neighbor_net.fwd apx (fun b t => neighbors b i t))
      encoded_neighbor_map plan hTf hFp =
    some (predictorVal apx P ego neighbors neighbor_map encoded_neighbor_map plan hTf hFp) := by
  have ha2m := fun (actor : Fin B → Vec 128) wps msk =>
    a2m_fwd_eq_some apx P.agent_map actor wps msk hNl
  unfold predictorCore predictorVal neighborCtx interactionEmb encodedActors actorMaskR
  simp only [ae_fwd_eq_some, seqFin_some, aa_fwd_repaired_eq_some, ha2m,
    Option.bind_eq_bind', Option.some_bind', Option.map_some', Option.pure_def]

/-- The nested-list view of a 4-axis tensor has exactly the index-type
dimensions as its shape. -/
theorem toL4_shape {B Nn T F : ℕ} (x : Fin B → Fin Nn → Fin T → Vec F) :
    hasShape4 (toL4 x) B Nn T F := by
  unfold toL4
  refine ⟨List.length_ofFn _, ?_⟩
  intro a ha
  rw [List.mem_ofFn] at ha
  obtain ⟨b, rfl⟩ := ha
  refine ⟨List.length_ofFn _, ?_⟩
  intro y hy
  rw [List.mem_ofFn] at hy
  obtain ⟨n, rfl⟩ := hy
  refine ⟨List.length_ofFn _, ?_⟩
  intro z hz
  rw [List.mem_ofFn] at hz
  obtain ⟨t, rfl⟩ := hz
  exact List.length_ofFn _

/-- `Predictor.forward` on the canonical full observation bundle reduces to
the post-loop computation: all four keys are recognized and every local the
post-loop code reads has been assigned. -/
theorem forward_full_list (apx : Apx) (P : PredictorP) {B Nn Nl Tf Fp : ℕ}
    (e : Fin B → Fin 11 → Vec 5) (n : Fin B → Fin Nn → Fin 11 → Vec 5)
    (m : Fin B → Fin Nl → Fin 51 → Vec 4)
    (nm : Fin B → Fin Nn → Fin Nl → Fin 51 → Vec 4)
    (plan : Fin B → Fin Tf → Vec Fp) (hTf : 30 ≤ Tf) (hFp : 3 ≤ Fp)
    (hNn : 0 < Nn) :
    PredictorP.forward apx P
      [ObsEntry.ego_state e, ObsEntry.neighbors_state n,
       ObsEntry.ego_map m, ObsEntry.neighbors_map nm] plan hTf hFp =
    .ok (predictorCore apx P e n nm
      (P.ego_net.fwd apx e)
      (fun i => P.neighbor_net.fwd apx (fun b t => n b i t))
      (fun b i l w => P.map_net.ap (nm b i l w)) plan hTf hFp) := by
  have h1 : PredictorP.forward apx P
      [ObsEntry.ego_state e, ObsEntry.neighbors_state n,
       ObsEntry.ego_map m, ObsEntry.neighbors_map nm] plan hTf hFp =
    if 0 < Nn then
      .ok (predictorCore apx P e n nm
        (P.ego_net.fwd apx e)
        (fun i => P.neighbor_net.fwd apx (fun b t => n b i t))
        (fun b i l w => P.map_net.ap (nm b i l w)) plan hTf hFp)
    else .error .runtimeError := rfl
  rw [h1, if_pos hNn]

/-- Claim C1: for every well-shaped input (T_h = 11, W = 51, at least one
neighbor and one lane, a plan with T_f ≥ 30 timesteps and ≥ 3 feature
channels), `Predictor.forward` succeeds — no Python error, no NaN
poisoning — and returns a tensor of shape exactly (B, N_n, 30, 3). -/
theorem C1_output_shape (apx : Apx) (P : PredictorP) {B Nn Nl Tf Fp : ℕ}
    (e : Fin B → Fin 11 → Vec 5) (n : Fin B → Fin Nn → Fin 11 → Vec 5)
    (m : Fin B → Fin Nl → Fin 51 → Vec 4)
    (nm : Fin B → Fin Nn → Fin Nl → Fin 51 → Vec 4)
    (plan : Fin B → Fin Tf → Vec Fp)
    (hNn : 0 < Nn) (hNl : 0 < Nl) (hTf : 30 ≤ Tf) (hFp : 3 ≤ Fp) :
    ∃ out,
      PredictorP.forward apx P
        [ObsEntry.ego_state e, ObsEntry.neighbors_state n,
         ObsEntry.ego_map m, ObsEntry.neighbors_map nm] plan hTf hFp =
        .ok (some out) ∧
      hasShape4 (toL4 out) B Nn 30 3 := by
  refine ⟨predictorVal apx P e n nm (fun b i l w => P.map_net.ap (nm b i l w)) plan hTf hFp,
    ?_, toL4_shape _⟩
  rw [forward_full_list apx P e n m nm plan hTf hFp hNn]
  rw [predictorCore_eq_some apx P e n nm (fun b i l w => P.map_net.ap (nm b i l w))
    plan hTf hFp hNl]

/-- Sum of a 30-indexed family gated at 0: only index 0 contributes. -/
theorem sum_ite_le_zero (f : Fin 30 → ℚ) :
    (∑ s : Fin 30, if s.1 ≤ 0 then f s else 0) = f ⟨0, by omega⟩ := by
  have hsplit : ∀ s : Fin 30,
      (if s.1 ≤ 0 then f s else 0) = (if s = ⟨0, by omega⟩ then f s else 0) := by
    intro s
    by_cases h1 : s.1 ≤ 0
    · rw [if_pos h1, if_pos (Fin.ext (show s.1 = 0 by omega))]
    · rw [if_neg h1, if_neg]
      intro he
      have h2 : s.1 = 0 := by rw [he]
      omega
  rw [Finset.sum_congr rfl (fun s _ => hsplit s),
    Finset.sum_ite_eq' Finset.univ (⟨0, by omega⟩ : Fin 30) f,
    if_pos (Finset.mem_univ _)]

/-- Extending the gate of a cumulative sum by one step adds one term. -/
theorem sum_ite_le_succ (f : Fin 30 → ℚ) (n : ℕ) (h : n + 1 < 30) :
    (∑ s : Fin 30, if s.1 ≤ n + 1 then f s else 0) =
      (∑ s : Fin 30, if s.1 ≤ n then f s else 0) + f ⟨n + 1, h⟩ := by
  have hsplit : ∀ s : Fin 30,
      (if s.1 ≤ n + 1 then f s else 0) =
        (if s.1 ≤ n then f s else 0) + (if s = ⟨n + 1, h⟩ then f s else 0) := by
    intro s
    by_cases h1 : s.1 ≤ n
    · have hne : ¬s = ⟨n + 1, h⟩ := by
        intro he
        have h2 : s.1 = n + 1 := by rw [he]
        omega
      rw [if_pos (by omega), if_pos h1, if_neg hne, add_zero]
    · by_cases h2 : s.1 = n + 1
      · rw [if_pos (by omega), if_neg h1, if_pos (Fin.ext h2), zero_add]
      · have hne : ¬s = ⟨n + 1, h⟩ := by
          intro he
          have h3 : s.1 = n + 1 := by rw [he]
          exact h2 h3
        rw [if_neg (by omega), if_neg h1, if_neg hne, add_zero]
  rw [Finset.sum_congr rfl (fun s _ => hsplit s), Finset.sum_add_distrib]
  congr 1
  rw [Finset.sum_ite_eq' Finset.univ (⟨n + 1, h⟩ : Fin 30) f]
  rw [if_pos (Finset.mem_univ _)]

/-- Claim C4: in every decoder rollout, each emitted state is the state
entering the step plus the decoded state_update, and hence the t-th output
is the initial 3-state (the first three components of init_state) plus the
cumulative sum of the per-step deltas up to t. -/
theorem C4_residual_update (apx : Apx) (P : DecoderP) {B Tf Fp Fs : ℕ}
    (init_hidden : Fin B → Vec 384)
    (plan : Fin B → Fin Tf → Vec Fp) (hTf : 30 ≤ Tf) (hFp : 3 ≤ Fp)
    (gate : Fin B → ℚ) (init_state : Fin B → Vec Fs) (hFs : 3 ≤ Fs) :
    (∀ (b : Fin B) (t : Fin 30) (j : Fin 3),
      P.fwd apx init_hidden plan hTf hFp gate init_state hFs b t j =
        P.states apx init_hidden plan hTf hFp gate init_state hFs t.1 b j +
          P.deltaAt apx init_hidden plan hTf hFp gate init_state hFs t b j) ∧
    (∀ (b : Fin B) (t : Fin 30) (j : Fin 3),
      P.fwd apx init_hidden plan hTf hFp gate init_state hFs b t j =
        init_state b (Fin.castLE hFs j) +
          ∑ s : Fin 30,
            if s.1 ≤ t.1 then
              P.deltaAt apx init_hidden plan hTf hFp gate init_state hFs s b j
            else 0) := by
  have hstep : ∀ (b : Fin B) (t : Fin 30) (j : Fin 3),
      P.fwd apx init_hidden plan hTf hFp gate init_state hFs b t j =
        P.states apx init_hidden plan hTf hFp gate init_state hFs t.1 b j +
          P.deltaAt apx init_hidden plan hTf hFp gate init_state hFs t b j := by
    intro b t j
    show P.states apx init_hidden plan hTf hFp gate init_state hFs (t.1 + 1) b j = _
    rw [DecoderP.states]
    rw [dif_pos t.2]
    rfl
  refine ⟨hstep, ?_⟩
  have key : ∀ (n : ℕ) (hn : n < 30) (b : Fin B) (j : Fin 3),
      P.states apx init_hidden plan hTf hFp gate init_state hFs (n + 1) b j =
        init_state b (Fin.castLE hFs j) +
          ∑ s : Fin 30,
            if s.1 ≤ n then
              P.deltaAt apx init_hidden plan hTf hFp gate init_state hFs s b j
            else 0 := by
    intro n
    induction n with
    | zero =>
      intro hn b j
      rw [sum_ite_le_zero]
      rw [DecoderP.states, dif_pos hn]
      rfl
    | succ k ih =>
      intro hn b j
      rw [sum_ite_le_succ _ k hn, DecoderP.states, dif_pos hn]
      show P.states apx init_hidden plan hTf hFp gate init_state hFs (k + 1) b j + _ = _
      rw [ih (by omega) b j, add_assoc]
      rfl
  intro b t j
  have := key t.1 t.2 b j
  exact this

/-- With `use_interaction = False` the decoder rollout never reads the
plan argument. -/
theorem decoder_plan_indep (apx : Apx) (P : DecoderP) (h : P.use_interaction = false)
    {B Tf Fp Fs : ℕ} (init_hidden : Fin B → Vec 384)
    (plan1 plan2 : Fin B → Fin Tf → Vec Fp) (hTf : 30 ≤ Tf) (hFp : 3 ≤ Fp)
    (gate : Fin B → ℚ) (init_state : Fin B → Vec Fs) (hFs : 3 ≤ Fs) :
    P.fwd apx init_hidden plan1 hTf hFp gate init_state hFs =
      P.fwd apx init_hidden plan2 hTf hFp gate init_state hFs := by
  have hnext : ∀ (cur : Fin B → Vec 3) (t : Fin 30),
      P.stepNext apx init_hidden plan1 hTf hFp gate cur t =
        P.stepNext apx init_hidden plan2 hTf hFp gate cur t := by
    intro cur t
    have hfeat : P.stepFeat plan1 hTf hFp gate cur t =
        P.stepFeat plan2 hTf hFp gate cur t := by
      funext b c
      unfold DecoderP.stepFeat
      rw [h]
      simp
    unfold DecoderP.stepNext DecoderP.stepUpd DecoderP.stepSeq
    rw [hfeat]
  have hstates : ∀ n, P.states apx init_hidden plan1 hTf hFp gate init_state hFs n =
      P.states apx init_hidden plan2 hTf hFp gate init_state hFs n := by
    intro n
    induction n with
    | zero => rfl
    | succ k ih =>
      simp only [DecoderP.states]
      by_cases hk : k < 30
      · rw [dif_pos hk, dif_pos hk, ih, hnext]
      · rw [dif_neg hk, dif_neg hk, ih]
  funext b t
  unfold DecoderP.fwd
  rw [hstates]

/-- Claim C6: with the model constructed with `use_interaction = False`,
`Predictor.forward` is independent of the values of the plan argument: two
calls differing only in plan produce identical results. -/
theorem C6_plan_ablation (apx : Apx) (P : PredictorP) {B Nn Nl Tf Fp : ℕ}
    (obs : List (ObsEntry B Nn Nl)) (plan1 plan2 : Fin B → Fin Tf → Vec Fp)
    (hTf : 30 ≤ Tf) (hFp : 3 ≤ Fp) (h : P.decoder.use_interaction = false) :
    PredictorP.forward apx P obs plan1 hTf hFp =
      PredictorP.forward apx P obs plan2 hTf hFp := by
  have hdec := fun (ih : Fin B → Vec 384) (g : Fin B → ℚ) (init : Fin B → Vec 5) =>
    decoder_plan_indep apx P.decoder h ih plan1 plan2 hTf hFp g init (by omega)
  have hcore : ∀ (ego : Fin B → Fin 11 → Vec 5)
      (neighbors : Fin B → Fin Nn → Fin 11 → Vec 5)
      (nmap : Fin B → Fin Nn → Fin Nl → Fin 51 → Vec 4)
      (ee : Option (Fin B → Vec 128)) (en : Fin Nn → Option (Fin B → Vec 128))
      (enm : Fin B → Fin Nn → Fin Nl → Fin 51 → Vec 128),
      predictorCore apx P ego neighbors nmap ee en enm plan1 hTf hFp =
        predictorCore apx P ego neighbors nmap ee en enm plan2 hTf hFp := by
    intro ego neighbors nmap ee en enm
    unfold predictorCore
    simp only [hdec]
  unfold PredictorP.forward
  simp only [hcore]

/-- Claim C7: when the gate scalar is exactly 0, each decoder step input
reduces to the state features plus the context vector — the plan
contribution vanishes — and the whole interaction-mode rollout coincides
with the rollout of the same decoder built with `use_interaction = False`
(the plan channel entirely absent). -/
theorem C7_gate_zero (apx : Apx) (P : DecoderP) {B Tf Fp Fs : ℕ}
    (init_hidden : Fin B → Vec 384) (plan : Fin B → Fin Tf → Vec Fp)
    (hTf : 30 ≤ Tf) (hFp : 3 ≤ Fp) (gate : Fin B → ℚ)
    (init_state : Fin B → Vec Fs) (hFs : 3 ≤ Fs) (hg : ∀ b, gate b = 0) :
    (∀ (cur : Fin B → Vec 3) (t : Fin 30) (b : Fin B) (c : Fin 384),
      P.stepSeq init_hidden plan hTf hFp gate cur t b 0 c =
        P.state_input.ap (cur b) c + init_hidden b c) ∧
    P.fwd apx init_hidden plan hTf hFp gate init_state hFs =
      DecoderP.fwd apx { P with use_interaction := false } init_hidden plan hTf hFp
        gate init_state hFs := by
  have hfeat : ∀ (cur : Fin B → Vec 3) (t : Fin 30),
      P.stepFeat plan hTf hFp gate cur t = fun b c => P.state_input.ap (cur b) c := by
    intro cur t
    funext b c
    unfold DecoderP.stepFeat
    cases hui : P.use_interaction
    · simp
    · simp [hg b]
  have hfeat2 : ∀ (cur : Fin B → Vec 3) (t : Fin 30),
      DecoderP.stepFeat { P with use_interaction := false } plan hTf hFp gate cur t =
        fun b c => P.state_input.ap (cur b) c := by
    intro cur t
    funext b c
    unfold DecoderP.stepFeat
    simp
  constructor
  · intro cur t b c
    unfold DecoderP.stepSeq
    rw [hfeat]
  · have hnext : ∀ (cur : Fin B → Vec 3) (t : Fin 30),
        P.stepNext apx init_hidden plan hTf hFp gate cur t =
          DecoderP.stepNext apx { P with use_interaction := false } init_hidden plan
            hTf hFp gate cur t := by
      intro cur t
      unfold DecoderP.stepNext DecoderP.stepUpd DecoderP.stepSeq
      rw [hfeat, hfeat2]
    have hstates : ∀ n,
        P.states apx init_hidden plan hTf hFp gate init_state hFs n =
          DecoderP.states apx { P with use_interaction := false } init_hidden plan
            hTf hFp gate init_state hFs n := by
      intro n
      induction n with
      | zero => rfl
      | succ k ih =>
        simp only [DecoderP.states]
        by_cases hk : k < 30
        · rw [dif_pos hk, dif_pos hk, ih, hnext]
        · rw [dif_neg hk, dif_neg hk, ih]
    funext b t
    unfold DecoderP.fwd
    rw [hstates]

/-- Amended claim C2: `Decoder.forward` never applies its positional
encoding.  The length-1 sequence handed to the transformer-encoder layer at
every step is exactly the step features plus the constant context vector,
and consequently the whole rollout depends only on the exp / rsqrt /
attention-scale kernels — not on the sin, cos and log-10000 inputs that
determine the positional-encoding table. -/
theorem C2_no_positional_encoding (apx1 apx2 : Apx)
    (hexp : apx1.expA = apx2.expA) (hrs : apx1.rsqrtA = apx2.rsqrtA)
    (hinv : apx1.invSqrtHd = apx2.invSqrtHd)
    (P : DecoderP) {B Tf Fp Fs : ℕ} (init_hidden : Fin B → Vec 384)
    (plan : Fin B → Fin Tf → Vec Fp) (hTf : 30 ≤ Tf) (hFp : 3 ≤ Fp)
    (gate : Fin B → ℚ) (init_state : Fin B → Vec Fs) (hFs : 3 ≤ Fs) :
    (∀ (cur : Fin B → Vec 3) (t : Fin 30) (b : Fin B) (s : Fin 1) (c : Fin 384),
      P.stepSeq init_hidden plan hTf hFp gate cur t b s c =
        P.stepFeat plan hTf hFp gate cur t b c + init_hidden b c) ∧
    P.fwd apx1 init_hidden plan hTf hFp gate init_state hFs =
      P.fwd apx2 init_hidden plan hTf hFp gate init_state hFs := by
  refine ⟨fun cur t b s c => rfl, ?_⟩
  have hnext : ∀ (cur : Fin B → Vec 3) (t : Fin 30),
      P.stepNext apx1 init_hidden plan hTf hFp gate cur t =
        P.stepNext apx2 init_hidden plan hTf hFp gate cur t := by
    intro cur t
    unfold DecoderP.stepNext DecoderP.stepUpd TELayerP.ap mhaCore mSoftmax LNP.ap elu
    rw [hexp, hrs, hinv]
  have hstates : ∀ n,
      P.states apx1 init_hidden plan hTf hFp gate init_state hFs n =
        P.states apx2 init_hidden plan hTf hFp gate init_state hFs n := by
    intro n
    induction n with
    | zero => rfl
    | succ k ih =>
      simp only [DecoderP.states]
      by_cases hk : k < 30
      · rw [dif_pos hk, dif_pos hk, ih, hnext]
      · rw [dif_neg hk, dif_neg hk, ih]
  funext b t
  unfold DecoderP.fwd
  rw [hstates]

/-- Counterexample to claim C2 as stated: adding the positional encoding
at position 0 to the per-step input (what the spec prescribes) differs from
the sequence the decoder actually hands to its transformer-encoder layer —
at position 0 the table has cos 0 = 1 on odd channels, so the two values
differ on channel 1 already for the all-zero decoder and inputs. -/
theorem C2_counterexample :
    (fun (b : Fin 1) (s : Fin 1) (c : Fin 384) =>
        dec0.stepSeq zHid zPlan (le_refl 30) (le_refl 3) zGate zCur 0 b s c +
          peTable apx0 384 30 0 c) ≠
      dec0.stepSeq zHid zPlan (le_refl 30) (le_refl 3) zGate zCur 0 := by
  intro h
  have h2 := congrFun (congrFun (congrFun h 0) 0) ⟨1, by omega⟩
  have hpe : peTable apx0 384 30 0 ⟨1, by omega⟩ = 1 := by
    unfold peTable
    norm_num [apx0]
  rw [hpe] at h2
  have h3 : (1 : ℚ) = 0 := by
    have h4 := h2
    rw [add_right_eq_self] at h4
    exact h4
  exact one_ne_zero h3

/-- Claim C5: `CrossTransformer.forward` forces key position 0 unmasked
before attention, so for every call with a nonempty key axis — including a
mask flagging every key invalid — each query row has at least one visible
key, the fully-masked softmax row (the NaN-producing branch, modelled as
`none`) is unreachable, and the call returns a value. -/
theorem C5_mask_repair (apx : Apx) (P : CrossTransformerP) {B Sq Sk : ℕ}
    (query : Fin B → Fin Sq → Vec 128) (key : Fin B → Fin Sk → Vec 128)
    (mask : Fin B → Fin Sk → Bool) (hSk : 0 < Sk) :
    (∀ b, repairMask mask b ⟨0, hSk⟩ = false) ∧
    P.fwd apx query key mask = some (P.fwdCore apx query key mask) :=
  ⟨repairMask_zero mask hSk, ct_fwd_eq_some apx P query key mask hSk⟩

/-- Counterexample to claim C8 as stated: a sequence length S = 2 satisfies
S ≤ L for max_len L = 3, but `x + self.pe` is a broadcast of (B, 2, d)
against (1, 3, d), which is a torch size-mismatch error, not a success. -/
theorem C8_counterexample : 2 ≤ 3 ∧ peAddShape 1 2 4 3 = none := by
  constructor
  · omega
  · rfl

/-- Amended claim C8: `PositionalEncoding.forward` adds the full (1, L, d)
table with torch broadcasting.  It succeeds iff the sequence length S
equals L (or a degenerate broadcast S = 1 or L = 1 applies) — not for
every S ≤ L; in the shape-correct case S = L the result shape is (B, L, d)
and the value is x plus the sin/cos table broadcast over the batch, with
dropout the identity at inference. -/
theorem C8_pe_broadcast :
    (∀ B S d L : ℕ, (peAddShape B S d L).isSome = true ↔ (S = L ∨ S = 1 ∨ L = 1)) ∧
    (∀ B d L : ℕ, peAddShape B L d L = some (B, L, d)) ∧
    (∀ (apx : Apx) (d L B : ℕ) (x : Fin B → Fin L → Vec d) (b : Fin B)
      (p : Fin L) (c : Fin d),
      peForward apx d L x b p c = x b p c + peTable apx d L p c) := by
  refine ⟨?_, ?_, fun apx d L B x b p c => rfl⟩
  · intro B S d L
    constructor
    · intro h
      by_contra hc
      push_neg at hc
      obtain ⟨h1, h2, h3⟩ := hc
      by_cases hB : B = 1 <;>
        simp [peAddShape, torchAddShape, broadcastDim, h1, h2, h3, hB] at h
    · intro h
      rcases h with h | h | h
      · subst h
        by_cases hB : B = 1 <;> by_cases hS : S = 1 <;>
          simp_all [peAddShape, torchAddShape, broadcastDim]
      · subst h
        by_cases hB : B = 1 <;> by_cases hL : L = 1 <;>
          simp_all [peAddShape, torchAddShape, broadcastDim]
      · subst h
        by_cases hB : B = 1 <;> by_cases hS : S = 1 <;>
          simp_all [peAddShape, torchAddShape, broadcastDim]
  · intro B d L
    by_cases hB : B = 1 <;> by_cases hL : L = 1 <;>
      simp_all [peAddShape, torchAddShape, broadcastDim]

/-- A feed-forward sub-block whose final LayerNorm has gamma = 0 collapses
to that LayerNorm's beta, for every input. -/
theorem ffn0_ap (apx : Apx) (x : Vec 128) : FFNP.ap apx ffn0 x = fun _ => 0 := by
  funext j
  simp [FFNP.ap, LNP.ap, ffn0, ln0]

/-- `ffnOne` maps every input to the all-ones vector. -/
theorem ffnOne_ap (apx : Apx) (x : Vec 128) : FFNP.ap apx ffnOne x = fun _ => 1 := by
  funext j
  simp [FFNP.ap, LNP.ap, ffnOne, ln0]

/-- Counterexample to claim C3 as stated: `Predictor` holds two separate
`AgentEncoder` instances (`ego_net` and `neighbor_net`), so the function
applied to ego_state and the function applied to a neighbors_state slice
need not agree.  For the parameter assignment `predSplit` the key loop
stores different encodings for identical ego and neighbor-slice inputs. -/
theorem C3_counterexample :
    obsLoop apx0 predSplit
        ([ObsEntry.ego_state zEgo, ObsEntry.neighbors_state zNbr] :
          List (ObsEntry 1 1 1)) =
      .ok { ego := some zEgo, neighbors := some zNbr,
            encoded_ego := some (predSplit.ego_net.fwd apx0 zEgo),
            encoded_neighbors :=
              some (fun i => predSplit.neighbor_net.fwd apx0 (fun b t => zNbr b i t)) } ∧
    predSplit.ego_net.fwd apx0 zEgo ≠
      predSplit.neighbor_net.fwd apx0 (fun b t => zNbr b 0 t) := by
  constructor
  · rfl
  · intro h
    rw [ae_fwd_eq_some, ae_fwd_eq_some] at h
    have h2 := congrFun (congrFun (Option.some.inj h) 0) 0
    simp only [predSplit, pred0, ae0, aeOne, st0, AgentEncoderP.fwdCore,
      SelfTransformerP.fwdCore, ffn0_ap, ffnOne_ap] at h2
    exact absurd h2 (by norm_num)

/-- Amended claim C3: all neighbors are encoded by one shared
`AgentEncoder` instance (`neighbor_net`) — two neighbors with identical
state slices receive identical encodings — while ego is encoded by a
separate `AgentEncoder` instance (`ego_net`) whose parameters may differ
from the neighbors' encoder. -/
theorem C3_shared_neighbor_encoder (apx : Apx) (P : PredictorP) {B Nn Nl : ℕ}
    (v : Fin B → Fin Nn → Fin 11 → Vec 5) (st : ObsLocals B Nn Nl)
    (hloop : obsLoop apx P [ObsEntry.neighbors_state v] = .ok st)
    (en : Fin Nn → Option (Fin B → Vec 128))
    (hen : st.encoded_neighbors = some en)
    (i j : Fin Nn) (hij : ∀ b t, v b i t = v b j t) : en i = en j := by
  have h1 : Except.ok
      ({ neighbors := some v,
         encoded_neighbors :=
           some (fun i2 => P.neighbor_net.fwd apx (fun b t => v b i2 t)) } :
        ObsLocals B Nn Nl) = .ok st := hloop
  have h2 := Except.ok.inj h1
  rw [← h2] at hen
  have h3 := Option.some.inj hen
  rw [← h3]
  have h4 : (fun b t => v b i t) = (fun b t => v b j t) := by
    funext b t
    exact hij b t
  show P.neighbor_net.fwd apx (fun b t => v b i t) =
    P.neighbor_net.fwd apx (fun b t => v b j t)
  rw [h4]

/-- The key loop raises KeyError whenever the entries contain an
unrecognized key, from any starting state. -/
theorem obsLoop_keyError_aux (apx : Apx) (P : PredictorP) {B Nn Nl : ℕ}
    (k : String) (obs : List (ObsEntry B Nn Nl)) :
    ∀ st : ObsLocals B Nn Nl, ObsEntry.other k ∈ obs →
      List.foldlM (obsStep apx P) st obs = .error .keyError := by
  induction obs with
  | nil =>
    intro st h
    cases h
  | cons e rest ih =>
    intro st h
    cases e with
    | ego_state v =>
      cases h with
      | tail _ hm => exact ih _ hm
    | neighbors_state v =>
      cases h with
      | tail _ hm => exact ih _ hm
    | ego_map v =>
      cases h with
      | tail _ hm => exact ih _ hm
    | neighbors_map v =>
      cases h with
      | tail _ hm => exact ih _ hm
    | other k2 => rfl

/-- The key loop of `Predictor.forward` raises KeyError whenever the
observation bundle contains an unrecognized key. -/
theorem obsLoop_keyError (apx : Apx) (P : PredictorP) {B Nn Nl : ℕ}
    (obs : List (ObsEntry B Nn Nl)) (k : String) (h : ObsEntry.other k ∈ obs) :
    obsLoop apx P obs = .error .keyError :=
  obsLoop_keyError_aux apx P k obs {} h

/-- Claim C9: for every observation bundle containing any key outside
{ego_state, neighbors_state, ego_map, neighbors_map}, `Predictor.forward`
fails with a KeyError — fatal, no recovery, no result returned. -/
theorem C9_unrecognized_key (apx : Apx) (P : PredictorP) {B Nn Nl Tf Fp : ℕ}
    (obs : List (ObsEntry B Nn Nl)) (plan : Fin B → Fin Tf → Vec Fp)
    (hTf : 30 ≤ Tf) (hFp : 3 ≤ Fp) (k : String) (h : ObsEntry.other k ∈ obs) :
    PredictorP.forward apx P obs plan hTf hFp = .error .keyError := by
  unfold PredictorP.forward
  rw [obsLoop_keyError apx P obs k h]
  rfl

/-- Amended claim C10: the key check only rejects extra keys, never missing
ones.  For every bundle with no unrecognized key the loop completes without
a key-error.  Omitting ego_state or neighbors_state then surfaces after the
loop as an UnboundLocalError naming the first never-assigned local read
(encoded_ego resp. encoded_neighbors, at line 224, for any neighbor
count).  Omitting neighbors_map surfaces as an UnboundLocalError naming
neighbor_map only when there is at least one neighbor (line 232 sits
inside a loop over the neighbors); with zero neighbors that local is never
referenced and the call instead fails at `torch.stack` of the empty
prediction list (a RuntimeError, line 243).  Omitting ego_map causes no
unbound-local error at all — with at least one neighbor the call runs to
completion (see the counterexample) — because ego_map and encoded_ego_map
are assigned in the loop yet never referenced afterwards. -/
theorem C10_missing_key_behaviour :
    (∀ (apx : Apx) (P : PredictorP) (B Nn Nl : ℕ) (obs : List (ObsEntry B Nn Nl)),
      (∀ k, ObsEntry.other k ∉ obs) → ∃ st, obsLoop apx P obs = .ok st) ∧
    (∀ (apx : Apx) (P : PredictorP) (B Nn Nl Tf Fp : ℕ)
      (vn : Fin B → Fin Nn → Fin 11 → Vec 5)
      (vem : Fin B → Fin Nl → Fin 51 → Vec 4)
      (vnm : Fin B → Fin Nn → Fin Nl → Fin 51 → Vec 4)
      (plan : Fin B → Fin Tf → Vec Fp) (hTf : 30 ≤ Tf) (hFp : 3 ≤ Fp),
      PredictorP.forward apx P
        [ObsEntry.neighbors_state vn, ObsEntry.ego_map vem, ObsEntry.neighbors_map vnm]
        plan hTf hFp = .error (.nameError "encoded_ego")) ∧
    (∀ (apx : Apx) (P : PredictorP) (B Nn Nl Tf Fp : ℕ)
      (ve : Fin B → Fin 11 → Vec 5)
      (vem : Fin B → Fin Nl → Fin 51 → Vec 4)
      (vnm : Fin B → Fin Nn → Fin Nl → Fin 51 → Vec 4)
      (plan : Fin B → Fin Tf → Vec Fp) (hTf : 30 ≤ Tf) (hFp : 3 ≤ Fp),
      PredictorP.forward apx P
        [ObsEntry.ego_state ve, ObsEntry.ego_map vem, ObsEntry.neighbors_map vnm]
        plan hTf hFp = .error (.nameError "encoded_neighbors")) ∧
    (∀ (apx : Apx) (P : PredictorP) (B Nn Nl Tf Fp : ℕ)
      (ve : Fin B → Fin 11 → Vec 5)
      (vn : Fin B → Fin Nn → Fin 11 → Vec 5)
      (vem : Fin B → Fin Nl → Fin 51 → Vec 4)
      (plan : Fin B → Fin Tf → Vec Fp) (hTf : 30 ≤ Tf) (hFp : 3 ≤ Fp),
      0 < Nn →
      PredictorP.forward apx P
        [ObsEntry.ego_state ve, ObsEntry.neighbors_state vn, ObsEntry.ego_map vem]
        plan hTf hFp = .error (.nameError "neighbor_map")) ∧
    (∀ (apx : Apx) (P : PredictorP) (B Nl Tf Fp : ℕ)
      (ve : Fin B → Fin 11 → Vec 5)
      (vn : Fin B → Fin 0 → Fin 11 → Vec 5)
      (vem : Fin B → Fin Nl → Fin 51 → Vec 4)
      (plan : Fin B → Fin Tf → Vec Fp) (hTf : 30 ≤ Tf) (hFp : 3 ≤ Fp),
      PredictorP.forward apx P
        ([ObsEntry.ego_state ve, ObsEntry.neighbors_state vn, ObsEntry.ego_map vem] :
          List (ObsEntry B 0 Nl))
        plan hTf hFp = .error .runtimeError) := by
  refine ⟨?_, fun apx P B Nn Nl Tf Fp vn vem vnm plan hTf hFp => rfl,
    fun apx P B Nn Nl Tf Fp ve vem vnm plan hTf hFp => rfl,
    ?_,
    fun apx P B Nl Tf Fp ve vn vem plan hTf hFp => rfl⟩
  case refine_2 =>
    intro apx P B Nn Nl Tf Fp ve vn vem plan hTf hFp hNn
    have h1 : PredictorP.forward apx P
        [ObsEntry.ego_state ve, ObsEntry.neighbors_state vn, ObsEntry.ego_map vem]
        plan hTf hFp =
      if 0 < Nn then .error (.nameError "neighbor_map") else .error .runtimeError := rfl
    rw [h1, if_pos hNn]
  intro apx P B Nn Nl obs
  have aux : ∀ st : ObsLocals B Nn Nl, (∀ k, ObsEntry.other k ∉ obs) →
      ∃ st2, List.foldlM (obsStep apx P) st obs = .ok st2 := by
    induction obs with
    | nil =>
      intro st _
      exact ⟨st, rfl⟩
    | cons e rest ih =>
      intro st h
      have hrest : ∀ k, ObsEntry.other k ∉ rest := by
        intro k hk
        exact h k (List.mem_cons_of_mem _ hk)
      cases e with
      | ego_state v => exact ih _ hrest
      | neighbors_state v => exact ih _ hrest
      | ego_map v => exact ih _ hrest
      | neighbors_map v => exact ih _ hrest
      | other k2 => exact absurd (List.mem_cons_self _ _) (h k2)
  exact aux {}

/-- Counterexample to claim C10 as stated: a bundle omitting the required
key ego_map (and containing no unrecognized key) does not fail at all —
`Predictor.forward` runs to completion and returns a prediction, because
the post-loop code never references ego_map or encoded_ego_map. -/
theorem C10_counterexample :
    PredictorP.forward apx0 pred0
        ([ObsEntry.ego_state zEgo, ObsEntry.neighbors_state zNbr,
          ObsEntry.neighbors_map zNbrMap] : List (ObsEntry 1 1 1))
        zPlan (le_refl 30) (le_refl 3) =
      .ok (some (predictorVal apx0 pred0 zEgo zNbr zNbrMap
        (fun b i l w => pred0.map_net.ap (zNbrMap b i l w)) zPlan
        (le_refl 30) (le_refl 3))) := by
  have h1 : PredictorP.forward apx0 pred0
      ([ObsEntry.ego_state zEgo, ObsEntry.neighbors_state zNbr,
        ObsEntry.neighbors_map zNbrMap] : List (ObsEntry 1 1 1))
      zPlan (le_refl 30) (le_refl 3) =
    .ok (predictorCore apx0 pred0 zEgo zNbr zNbrMap
      (pred0.ego_net.fwd apx0 zEgo)
      (fun i => pred0.neighbor_net.fwd apx0 (fun b t => zNbr b i t))
      (fun b i l w => pred0.map_net.ap (zNbrMap b i l w)) zPlan
      (le_refl 30) (le_refl 3)) := rfl
  rw [h1, predictorCore_eq_some apx0 pred0 zEgo zNbr zNbrMap
    (fun b i l w => pred0.map_net.ap (zNbrMap b i l w)) zPlan
    (le_refl 30) (le_refl 3) (by omega)]

/-- Witness for C1 at B = N_n = N_l = 1 with the all-zero model. -/
theorem C1_output_shape_witness :
    ∃ out,
      PredictorP.forward apx0 pred0
        ([ObsEntry.ego_state zEgo, ObsEntry.neighbors_state zNbr,
          ObsEntry.ego_map zEgoMap, ObsEntry.neighbors_map zNbrMap] :
          List (ObsEntry 1 1 1)) zPlan (le_refl 30) (le_refl 3) =
        .ok (some out) ∧
      hasShape4 (toL4 out) 1 1 30 3 :=
  C1_output_shape apx0 pred0 zEgo zNbr zEgoMap zNbrMap zPlan Nat.one_pos Nat.one_pos
    (le_refl 30) (le_refl 3)

/-- Witness for the amended C2 at the all-zero decoder: two kernel
instances differing in the sin and log-10000 inputs give identical decoder
outputs. -/
theorem C2_no_positional_encoding_witness :
    dec0.fwd apx0 zHid zPlan (le_refl 30) (le_refl 3) zGate zCur (le_refl 3) =
      dec0.fwd apx1 zHid zPlan (le_refl 30) (le_refl 3) zGate zCur (le_refl 3) :=
  (C2_no_positional_encoding apx0 apx1 rfl rfl rfl dec0 zHid zPlan (le_refl 30)
    (le_refl 3) zGate zCur (le_refl 3)).2

/-- Witness for the amended C3: two neighbors with identical all-zero
slices receive the same encoding from the shared neighbor encoder. -/
theorem C3_shared_neighbor_encoder_witness :
    pred0.neighbor_net.fwd apx0 (fun b t => zNbr2 b 0 t) =
      pred0.neighbor_net.fwd apx0 (fun b t => zNbr2 b 1 t) :=
  C3_shared_neighbor_encoder apx0 pred0 zNbr2
    ({ neighbors := some zNbr2,
       encoded_neighbors :=
         some (fun i => pred0.neighbor_net.fwd apx0 (fun b t => zNbr2 b i t)) } :
      ObsLocals 1 2 1)
    rfl (fun i => pred0.neighbor_net.fwd apx0 (fun b t => zNbr2 b i t)) rfl 0 1
    (fun _ _ => rfl)

/-- Witness for C4 at the all-zero decoder, step 0. -/
theorem C4_residual_update_witness :
    dec0.fwd apx0 zHid zPlan (le_refl 30) (le_refl 3) zGate zCur (le_refl 3) 0 0 0 =
      zCur 0 (Fin.castLE (le_refl 3) 0) +
        ∑ s : Fin 30,
          if s.1 ≤ ((0 : Fin 30) : ℕ) then
            dec0.deltaAt apx0 zHid zPlan (le_refl 30) (le_refl 3) zGate zCur
              (le_refl 3) s 0 0
          else 0 :=
  (C4_residual_update apx0 dec0 zHid zPlan (le_refl 30) (le_refl 3) zGate zCur
    (le_refl 3)).2 0 0 0

/-- Witness for C5 with a mask flagging every key invalid. -/
theorem C5_mask_repair_witness :
    ct0.fwd apx0 zQ1 zQ1 maskT = some (ct0.fwdCore apx0 zQ1 zQ1 maskT) :=
  (C5_mask_repair apx0 ct0 zQ1 zQ1 maskT Nat.one_pos).2

/-- Witness for C6: with `use_interaction = False`, the all-zero and
all-one plans give identical predictions. -/
theorem C6_plan_ablation_witness :
    PredictorP.forward apx0 pred0
        ([ObsEntry.ego_state zEgo, ObsEntry.neighbors_state zNbr,
          ObsEntry.ego_map zEgoMap, ObsEntry.neighbors_map zNbrMap] :
          List (ObsEntry 1 1 1)) zPlan (le_refl 30) (le_refl 3) =
      PredictorP.forward apx0 pred0
        [ObsEntry.ego_state zEgo, ObsEntry.neighbors_state zNbr,
         ObsEntry.ego_map zEgoMap, ObsEntry.neighbors_map zNbrMap]
        onePlan (le_refl 30) (le_refl 3) :=
  C6_plan_ablation apx0 pred0
    [ObsEntry.ego_state zEgo, ObsEntry.neighbors_state zNbr,
     ObsEntry.ego_map zEgoMap, ObsEntry.neighbors_map zNbrMap]
    zPlan onePlan (le_refl 30) (le_refl 3) rfl

/-- Witness for C7 at the interaction-mode all-zero decoder with the zero
gate. -/
theorem C7_gate_zero_witness :
    decInter.fwd apx0 zHid zPlan (le_refl 30) (le_refl 3) zGate zCur (le_refl 3) =
      DecoderP.fwd apx0 { decInter with use_interaction := false } zHid zPlan
        (le_refl 30) (le_refl 3) zGate zCur (le_refl 3) :=
  (C7_gate_zero apx0 decInter zHid zPlan (le_refl 30) (le_refl 3) zGate zCur
    (le_refl 3) (fun _ => rfl)).2

/-- Witness for the amended C8: the shape-correct case S = L = 51. -/
theorem C8_pe_broadcast_witness : peAddShape 2 51 128 51 = some (2, 51, 128) :=
  C8_pe_broadcast.2.1 2 128 51

/-- Witness for C9: a bundle containing the unrecognized key "speed". -/
theorem C9_unrecognized_key_witness :
    PredictorP.forward apx0 pred0 ([ObsEntry.other "speed"] : List (ObsEntry 1 1 1))
      zPlan (le_refl 30) (le_refl 3) = .error .keyError :=
  C9_unrecognized_key apx0 pred0 [ObsEntry.other "speed"] zPlan (le_refl 30)
    (le_refl 3) "speed" (List.mem_singleton.mpr rfl)

/-- Witness for the amended C10: a one-key bundle with no unrecognized key
completes the loop. -/
theorem C10_missing_key_behaviour_witness :
    ∃ st, obsLoop apx0 pred0 ([ObsEntry.ego_state zEgo] : List (ObsEntry 1 1 1)) =
      .ok st :=
  C10_missing_key_behaviour.1 apx0 pred0 1 1 1 [ObsEntry.ego_state zEgo]
    (fun k hk => by cases hk with | tail _ h2 => cases h2)

end Spec2Proof

